import Mathlib

/-!
# Verification of the composio-google-workspace capability registry and dispatch layer

This development embeds, as Lean definitions, the parts of the repository that the
specification talks about:

* the uniform result envelope (`InvocationResult`) and the envelopes the custom-tool
  executors actually return (`ToolEnvelope`, plain `data` records);
* the repository's dispatch wrapper `executeTool` (src/agents/ helper file, the
  unnamed part_001 source), which runs a tool and inspects the `successful` flag;
* the batch pattern of `scheduleMeetingWithInvites` (a `Promise.all` over per-attendee
  `sendEmail` calls);
* the slugs of every `createCustomTool` registration performed by
  `GoogleWorkspaceMCP.initializeCustomTools` in src/index.ts, group by group;
* the `GoogleWorkspaceService` readiness flag and its `/health` endpoint;
* the executors of `SHEETS_MODIFY_SHEET_VALUES`, `GMAIL_SEARCH_MESSAGES_FILTERS`,
  `GMAIL_GET_MESSAGES_CONTENT_BATCH`, `GMAIL_BATCH_DELETE_MESSAGES` and
  `EMAIL_ANALYTICS`;
* the connection-guarded convenience methods of `GoogleWorkspaceAgent`.

Pieces that live in the imported Composio SDK rather than in this repository
(schema validation, the wrapping of executor outcomes into result envelopes, and
the ordering behaviour of `Promise.all`) are modelled from the specification and
are marked as such in their doc comments.
-/

/-! ## The uniform result envelope -/

/-- The `InvocationResult` envelope of the specification: a success flag, an optional
payload and an optional failure message. -/
structure InvocationResult (α : Type) where
  succeeded : Bool
  data : Option α
  errorMessage : Option String
  deriving Repr, DecidableEq

/-- The invariant claimed of every dispatched result: exactly one of `data` and
`errorMessage` is populated, `data` only with `succeeded = true`, `errorMessage`
only with `succeeded = false`. -/
def InvocationResult.wellFormed {α : Type} (r : InvocationResult α) : Prop :=
  (r.succeeded = true ∧ r.data.isSome = true ∧ r.errorMessage = none) ∨
  (r.succeeded = false ∧ r.data = none ∧ r.errorMessage.isSome = true)

/-- Modelled from the spec: the dispatcher "wraps the executor's return value (or
thrown failure) into an InvocationResult", converting exceptions to
`succeeded: false` with the message as `errorMessage`.  The wrapping itself is
performed inside the Composio SDK, which is not part of this repository's sources. -/
def wrapOutcome {α : Type} (outcome : Except String α) : InvocationResult α :=
  match outcome with
  | Except.ok v => { succeeded := true, data := some v, errorMessage := none }
  | Except.error e => { succeeded := false, data := none, errorMessage := some e }

/-- The envelope shape returned literally by the custom tools of the unnamed
part_001 source (`return { data, successful: true, error: null }`). -/
structure ToolEnvelope (α : Type) where
  data : α
  successful : Bool
  error : Option String
  deriving Repr, DecidableEq

/-- Reading a part_001 executor envelope as an `InvocationResult`: the success flag,
the payload and the error field carry over unchanged. -/
def ToolEnvelope.toInvocationResult {α : Type} (t : ToolEnvelope α) : InvocationResult α :=
  { succeeded := t.successful, data := some t.data, errorMessage := t.error }

/-! ## The repository's dispatch wrapper `executeTool` (part_001)

`executeTool(toolSlug, userId, toolArguments)` calls `composio.tools.execute`
(an external collaborator, here a parameter `exec`), and then:
if the call itself threw, the `catch` block logs and rethrows; if the call
returned `successful: true` it returns `result.data`; otherwise it throws
`new Error(result.error)`.  Thrown errors are modelled as `Except.error`. -/

/-- Result record of `composio.tools.execute` as consumed by `executeTool`:
a `successful` flag, a `data` payload and an `error` message. -/
structure ComposioToolResult (α : Type) where
  successful : Bool
  data : α
  error : String
  deriving Repr, DecidableEq

/-- The repository's `executeTool` from the unnamed part_001 source: propagates a
thrown failure of the underlying call, returns `data` on `successful: true`, and
throws `Error(result.error)` on `successful: false`. -/
def executeTool {α β : Type} (exec : String → String → β → Except String (ComposioToolResult α))
    (toolSlug userId : String) (toolArguments : β) : Except String α :=
  match exec toolSlug userId toolArguments with
  | Except.error e => Except.error e
  | Except.ok result =>
    if result.successful then Except.ok result.data else Except.error result.error

/-- Rejection semantics of `Promise.all` over already-settled outcomes: if every
task fulfilled, the list of values; if any task rejected, the whole batch rejects
(the sibling results are discarded). -/
def promiseAllExcept {α : Type} : List (Except String α) → Except String (List α)
  | [] => Except.ok []
  | t :: ts =>
    match t with
    | Except.error e => Except.error e
    | Except.ok v =>
      match promiseAllExcept ts with
      | Except.error e => Except.error e
      | Except.ok vs => Except.ok (v :: vs)

/-- The email-invite batch of `GoogleWorkspaceAgent.scheduleMeetingWithInvites`:
one `sendEmail` per attendee, combined with `Promise.all`. -/
def scheduleMeetingInvites {α : Type} (sendEmailFn : String → Except String α)
    (attendees : List String) : Except String (List α) :=
  promiseAllExcept (attendees.map sendEmailFn)

/-! ## Slugs registered by `GoogleWorkspaceMCP.initializeCustomTools` (src/index.ts)

The eleven group methods register the following slugs, transcribed in source
order from their `createCustomTool` calls. -/

/-- Slugs of `createGmailCustomTools`. -/
def gmailToolSlugs : List String :=
  [ "GMAIL_GET_MESSAGES_CONTENT_BATCH",
    "GMAIL_GET_THREADS_CONTENT_BATCH",
    "GMAIL_DRAFT_MESSAGE",
    "GMAIL_BATCH_MODIFY_LABELS",
    "GMAIL_CREATE_LABEL",
    "GMAIL_SEARCH_MESSAGES_FILTERS",
    "GMAIL_GET_MESSAGE_RAW",
    "GMAIL_BATCH_DELETE_MESSAGES",
    "GMAIL_GET_USER_PROFILE",
    "GMAIL_WATCH_MAILBOX",
    "GMAIL_GET_ATTACHMENT",
    "GMAIL_BATCH_ARCHIVE_MESSAGES",
    "GMAIL_GET_HISTORY",
    "GMAIL_STOP_WATCH" ]

/-- Slugs of `createCalendarCustomTools`. -/
def calendarToolSlugs : List String :=
  [ "CALENDAR_LIST_EVENTS_FILTERS",
    "CALENDAR_GET_EVENT",
    "CALENDAR_UPDATE_EVENT",
    "CALENDAR_DELETE_EVENT",
    "CALENDAR_LIST_CALENDARS" ]

/-- Slugs of `createDriveCustomTools`. -/
def driveToolSlugs : List String :=
  [ "DRIVE_SEARCH_FILES_FILTERS",
    "DRIVE_GET_FILE_CONTENT",
    "DRIVE_UPLOAD_FILE",
    "DRIVE_CREATE_FOLDER",
    "DRIVE_COPY_FILE",
    "DRIVE_BATCH_GET_METADATA" ]

/-- Slugs of `createDocsCustomTools`. -/
def docsToolSlugs : List String :=
  [ "DOCS_GET_CONTENT_STRUCTURE",
    "DOCS_BATCH_UPDATE_CONTENT",
    "DOCS_INSERT_IMAGE",
    "DOCS_CREATE_FROM_TEMPLATE",
    "DOCS_REPLACE_TEXT",
    "DOCS_GET_SUGGESTIONS",
    "DOCS_APPLY_FORMATTING",
    "DOCS_INSERT_TABLE",
    "DOCS_GET_REVISION_HISTORY",
    "DOCS_EXPORT_DOCUMENT",
    "DOCS_INSERT_PAGE_BREAK",
    "DOCS_BATCH_GET_METADATA",
    "DOCS_CREATE_NAMED_RANGE",
    "DOCS_GET_OUTLINE" ]

/-- Slugs of `createSheetsCustomTools`. -/
def sheetsToolSlugs : List String :=
  [ "SHEETS_LIST_SPREADSHEETS",
    "SHEETS_GET_SPREADSHEET_INFO",
    "SHEETS_READ_SHEET_VALUES",
    "SHEETS_MODIFY_SHEET_VALUES",
    "SHEETS_CREATE_SPREADSHEET",
    "SHEETS_CREATE_SHEET" ]

/-- Slugs of `createSlidesCustomTools`. -/
def slidesToolSlugs : List String :=
  [ "SLIDES_CREATE_PRESENTATION",
    "SLIDES_GET_PRESENTATION",
    "SLIDES_BATCH_UPDATE_PRESENTATION",
    "SLIDES_GET_PAGE",
    "SLIDES_GET_PAGE_THUMBNAIL" ]

/-- Slugs of `createFormsCustomTools`. -/
def formsToolSlugs : List String :=
  [ "FORMS_CREATE_FORM",
    "FORMS_GET_FORM",
    "FORMS_SET_PUBLISH_SETTINGS",
    "FORMS_GET_FORM_RESPONSE",
    "FORMS_LIST_FORM_RESPONSES" ]

/-- Slugs of `createChatCustomTools`. -/
def chatToolSlugs : List String :=
  [ "CHAT_LIST_SPACES",
    "CHAT_GET_MESSAGES",
    "CHAT_SEND_MESSAGE",
    "CHAT_SEARCH_MESSAGES" ]

/-- Slugs of `createSearchCustomTools`. -/
def searchToolSlugs : List String :=
  [ "SEARCH_CUSTOM",
    "SEARCH_GET_SEARCH_ENGINE_INFO",
    "SEARCH_CUSTOM_SITERESTRICT" ]

/-- Slugs of `createTasksCustomTools`. -/
def tasksToolSlugs : List String :=
  [ "TASKS_LIST_TASK_LISTS",
    "TASKS_GET_TASK_LIST",
    "TASKS_CREATE_TASK_LIST",
    "TASKS_UPDATE_TASK_LIST",
    "TASKS_DELETE_TASK_LIST",
    "TASKS_LIST_TASKS",
    "TASKS_GET_TASK",
    "TASKS_CREATE_TASK",
    "TASKS_UPDATE_TASK",
    "TASKS_DELETE_TASK",
    "TASKS_MOVE_TASK",
    "TASKS_CLEAR_COMPLETED_TASKS" ]

/-- Slugs of `createCommentCustomTools` (Docs, Sheets and Slides comment tools). -/
def commentToolSlugs : List String :=
  [ "DOCS_READ_COMMENTS",
    "DOCS_CREATE_COMMENT",
    "DOCS_REPLY_COMMENT",
    "DOCS_RESOLVE_COMMENT",
    "SHEETS_READ_COMMENTS",
    "SHEETS_CREATE_COMMENT",
    "SHEETS_REPLY_COMMENT",
    "SHEETS_RESOLVE_COMMENT",
    "SLIDES_READ_COMMENTS",
    "SLIDES_CREATE_COMMENT",
    "SLIDES_REPLY_COMMENT",
    "SLIDES_RESOLVE_COMMENT" ]

/-- Every slug passed to a `createCustomTool` registration during a complete run of
`GoogleWorkspaceMCP.initializeCustomTools`, in registration order (the eleven group
methods run in sequence). -/
def allCustomToolSlugs : List String :=
  gmailToolSlugs ++ calendarToolSlugs ++ driveToolSlugs ++ docsToolSlugs ++
  sheetsToolSlugs ++ slidesToolSlugs ++ formsToolSlugs ++ chatToolSlugs ++
  searchToolSlugs ++ tasksToolSlugs ++ commentToolSlugs

/-! ## The service wrapper: readiness and the health endpoint (part_001) -/

/-- Payload of the `/health` endpoint of `GoogleWorkspaceService`: the status string
is `"ready"` when `isReady` holds and `"initializing"` otherwise, and `tools_count`
is the hardcoded literal `84`. -/
structure HealthResponse where
  status : String
  service : String
  tools_count : Nat
  user_id : String
  deriving Repr, DecidableEq

/-- The `/health` handler of `GoogleWorkspaceService.setupRoutes`, as a function of
the current readiness flag and the configured user id. -/
def healthResponse (isReady : Bool) (userId : String) : HealthResponse :=
  { status := if isReady then "ready" else "initializing",
    service := "google-workspace-tools",
    tools_count := 84,
    user_id := userId }

/-- Observable state of `GoogleWorkspaceService`: the `isReady` field, plus a ghost
flag recording whether `initializeCustomTools` has completed successfully. -/
structure ServiceState where
  isReady : Bool
  initCompleted : Bool
  deriving Repr, DecidableEq

/-- The constructor state: `isReady` starts `false`. -/
def ServiceState.start : ServiceState := { isReady := false, initCompleted := false }

/-- The events that touch the readiness flag: `initialize()` either completes
`initializeCustomTools` successfully and then sets `isReady` to `true`, or the
awaited call throws, the error is rethrown and the flag is left untouched.
No other code writes to `isReady`. -/
inductive ServiceEvent where
  | initSuccess : ServiceEvent
  | initFailure : ServiceEvent
  deriving Repr, DecidableEq

/-- One step of the service life cycle, as performed by
`GoogleWorkspaceService.initialize`. -/
def serviceStep : ServiceState → ServiceEvent → ServiceState
  | _, ServiceEvent.initSuccess => { isReady := true, initCompleted := true }
  | s, ServiceEvent.initFailure => s

/-- The state reached from the constructor state after a sequence of
initialization attempts. -/
def runService (events : List ServiceEvent) : ServiceState :=
  events.foldl serviceStep ServiceState.start

/-! ## The `SHEETS_MODIFY_SHEET_VALUES` executor (src/index.ts) -/

/-- Input schema of `SHEETS_MODIFY_SHEET_VALUES`: the optional fields are `Option`s,
matching `z.optional`. -/
structure ModifySheetValuesInput where
  user_google_email : String
  spreadsheet_id : String
  range_name : String
  values : Option (List (List String))
  value_input_option : Option String
  clear_values : Option Bool
  deriving Repr, DecidableEq

/-- Data record returned by the `SHEETS_MODIFY_SHEET_VALUES` executor. -/
structure ModifySheetValuesData where
  updated_cells : Nat
  updated_rows : Nat
  updated_columns : Nat
  range : String
  operation : String
  spreadsheet_id : String
  deriving Repr, DecidableEq

/-- The `SHEETS_MODIFY_SHEET_VALUES` executor: destructures `clear_values = false`,
and returns `clear_values ? 0 : (values?.length || 0)` for `updated_cells` and
`updated_rows`, `clear_values ? 0 : (values?.[0]?.length || 0)` for
`updated_columns`, and `clear_values ? 'clear' : 'update'` for `operation`. -/
def modifySheetValuesExecute (input : ModifySheetValuesInput) : ModifySheetValuesData :=
  let clear_values := input.clear_values.getD false
  { updated_cells := if clear_values then 0 else (input.values.map List.length).getD 0,
    updated_rows := if clear_values then 0 else (input.values.map List.length).getD 0,
    updated_columns :=
      if clear_values then 0 else ((input.values.bind List.head?).map List.length).getD 0,
    range := input.range_name,
    operation := if clear_values then "clear" else "update",
    spreadsheet_id := input.spreadsheet_id }

/-! ## The `GMAIL_SEARCH_MESSAGES_FILTERS` executor and `searchGmailMessages`
(src/index.ts) -/

/-- Input schema of `GMAIL_SEARCH_MESSAGES_FILTERS`. -/
structure GmailSearchFiltersInput where
  query : String
  user_google_email : String
  max_results : Option Nat
  label_ids : Option (List String)
  include_spam_trash : Option Bool
  page_token : Option String
  deriving Repr, DecidableEq

/-- Data record returned by the `GMAIL_SEARCH_MESSAGES_FILTERS` executor. The
`messages` array is always empty in the source, with no element shape given. -/
structure GmailSearchFiltersData where
  messages : List Unit
  next_page_token : Option String
  result_size_estimate : Nat
  query : String
  max_results : Nat
  deriving Repr, DecidableEq

/-- The `GMAIL_SEARCH_MESSAGES_FILTERS` executor: destructures
`max_results = 10` (and defaults for the other optional fields) and echoes the
effective `max_results` in the returned data. -/
def gmailSearchMessagesFiltersExecute (input : GmailSearchFiltersInput) :
    GmailSearchFiltersData :=
  let max_results := input.max_results.getD 10
  { messages := [],
    next_page_token := none,
    result_size_estimate := 0,
    query := input.query,
    max_results := max_results }

/-- Prompt string built by `GoogleWorkspaceMCP.searchGmailMessages` for a given
query and an explicit `maxResults` argument. -/
def searchGmailMessagesPromptWith (query : String) (maxResults : Nat) : String :=
  "Search Gmail for messages matching \"" ++ query ++ "\" and return the first " ++
    toString maxResults ++ " results"

/-- `GoogleWorkspaceMCP.searchGmailMessages` declares `maxResults: number = 10`:
a call that omits the argument runs with `10`. -/
def searchGmailMessagesPrompt (query : String) : String :=
  searchGmailMessagesPromptWith query 10

/-! ## The `GMAIL_GET_MESSAGES_CONTENT_BATCH` executor (src/index.ts) -/

/-- Input schema of `GMAIL_GET_MESSAGES_CONTENT_BATCH`. -/
structure GmailMessagesContentBatchInput where
  message_ids : List String
  user_google_email : String
  include_attachments : Option Bool
  deriving Repr, DecidableEq

/-- Data record returned by the `GMAIL_GET_MESSAGES_CONTENT_BATCH` executor: an
empty `messages` array (element shape not given in the source), the count of the
requested ids, and the caller's email. -/
structure GmailMessagesContentBatchData where
  messages : List Unit
  count : Nat
  user_email : String
  deriving Repr, DecidableEq

/-- The `GMAIL_GET_MESSAGES_CONTENT_BATCH` executor: always returns a `data`
record (the surrounding envelope carries no `successful` or `error` field). -/
def gmailGetMessagesContentBatchExecute (input : GmailMessagesContentBatchInput) :
    GmailMessagesContentBatchData :=
  { messages := [],
    count := input.message_ids.length,
    user_email := input.user_google_email }

/-! ## The `EMAIL_ANALYTICS` executor (unnamed part_001) -/

/-- Enumeration `z.enum(['day', 'week', 'month'])`. -/
inductive Timeframe where
  | day : Timeframe
  | week : Timeframe
  | month : Timeframe
  deriving Repr, DecidableEq

/-- Enumeration `z.enum(['volume', 'sentiment', 'response_time'])`. -/
inductive AnalysisType where
  | volume : AnalysisType
  | sentiment : AnalysisType
  | response_time : AnalysisType
  deriving Repr, DecidableEq

/-- Input of the `EMAIL_ANALYTICS` executor after zod parsing (all three fields
have zod defaults, so they are present by the time the executor runs). -/
structure EmailAnalyticsInput where
  timeframe : Timeframe
  analysisType : AnalysisType
  includeThreads : Bool
  deriving Repr, DecidableEq

/-- One `top_senders` entry of the mocked analytics. -/
structure SenderCount where
  email : String
  count : Nat
  deriving Repr, DecidableEq

/-- The `metrics` record of the mocked analytics. -/
structure EmailAnalyticsMetrics where
  total_emails : Nat
  avg_daily : Nat
  response_rate : Nat
  top_senders : List SenderCount
  busiest_hours : List String
  sentiment_score : Rat
  deriving Repr, DecidableEq

/-- The analytics record built by the `EMAIL_ANALYTICS` executor. -/
structure EmailAnalytics where
  period : Timeframe
  analysis_type : AnalysisType
  metrics : EmailAnalyticsMetrics
  insights : List String
  generated_at : String
  deriving Repr, DecidableEq

/-- Environment for the executor's impure reads: the four `Math.random()` samples
(the three integer ones given as the pre-floor scaled value, reduced mod their
range) and the current time string. -/
structure AnalyticsEnv where
  randTotal : Nat
  randDaily : Nat
  randRate : Nat
  randSentiment : Rat
  nowIso : String

/-- The `EMAIL_ANALYTICS` executor from the unnamed part_001 source: builds the
mocked analytics record and returns `{ data, successful: true, error: null }`. -/
def emailAnalyticsExecute (env : AnalyticsEnv) (input : EmailAnalyticsInput) :
    ToolEnvelope EmailAnalytics :=
  { data :=
      { period := input.timeframe,
        analysis_type := input.analysisType,
        metrics :=
          { total_emails := env.randTotal % 100 + 20,
            avg_daily := env.randDaily % 20 + 5,
            response_rate := env.randRate % 40 + 60,
            top_senders :=
              [ { email := "colleague@company.com", count := 12 },
                { email := "client@external.com", count := 8 },
                { email := "notifications@service.com", count := 25 } ],
            busiest_hours := ["9-10 AM", "2-3 PM", "4-5 PM"],
            sentiment_score := env.randSentiment * (2 / 5) + 3 / 5 },
        insights :=
          [ "Peak email activity occurs during mid-morning and afternoon",
            "Response rate is above average for your industry",
            "Consider email batching during high-volume periods" ],
        generated_at := env.nowIso },
    successful := true,
    error := none }

/-! ## Schema validation and dispatch (modelled from the spec)

The input schemas of the custom tools are zod objects interpreted by the Composio
SDK; neither zod nor the SDK is part of this repository's sources, so `validate`
and `dispatch` below follow the specification text. -/

/-- Untyped input values of an `InvocationRequest.rawInput` mapping. -/
inductive JValue where
  | vstr : String → JValue
  | vnum : Int → JValue
  | vbool : Bool → JValue
  | vlist : List JValue → JValue

/-- Primitive type tags of the schema fields used by the tools under study. -/
inductive FieldType where
  | tstr : FieldType
  | tnum : FieldType
  | tbool : FieldType
  | tstrList : FieldType
  deriving Repr, DecidableEq

/-- Whether a raw value matches a schema field type. -/
def typeChecks : FieldType → JValue → Bool
  | FieldType.tstr, JValue.vstr _ => true
  | FieldType.tnum, JValue.vnum _ => true
  | FieldType.tbool, JValue.vbool _ => true
  | FieldType.tstrList, JValue.vlist vs =>
    vs.all (fun v => match v with | JValue.vstr _ => true | _ => false)
  | _, _ => false

/-- One field of a declared input schema: name, type tag, required flag and
optional default value. -/
structure SchemaField where
  name : String
  ftype : FieldType
  required : Bool
  default : Option JValue

/-- Lookup of a field in a raw key/value input. -/
def lookupRaw (raw : List (String × JValue)) (name : String) : Option JValue :=
  (raw.find? (fun p => p.fst = name)).map Prod.snd

/-- Name of the first schema field that is required but absent from the raw
input, if any. -/
def firstMissingRequired (schema : List SchemaField) (raw : List (String × JValue)) :
    Option String :=
  (schema.find? (fun f => f.required && (lookupRaw raw f.name).isNone)).map SchemaField.name

/-- Type checking and normalization of the present and defaulted fields, in schema
order; unknown extra fields are ignored (lenient mode). -/
def normalizeFields : List SchemaField → List (String × JValue) →
    Except String (List (String × JValue))
  | [], _ => Except.ok []
  | f :: rest, raw =>
    match lookupRaw raw f.name with
    | some v =>
      if typeChecks f.ftype v then
        (normalizeFields rest raw).map (fun norm => (f.name, v) :: norm)
      else Except.error ("TypeMismatch: " ++ f.name)
    | none =>
      match f.default with
      | some d => (normalizeFields rest raw).map (fun norm => (f.name, d) :: norm)
      | none => normalizeFields rest raw

/-- Modelled from the spec: `validate(descriptor, rawInput)` — a missing required
field yields a `MissingField` error naming the field, a present field of the wrong
type yields `TypeMismatch`, defaults are applied for omitted optional fields, and
unknown extra fields are ignored. -/
def validateInput (schema : List SchemaField) (raw : List (String × JValue)) :
    Except String (List (String × JValue)) :=
  match firstMissingRequired schema raw with
  | some n => Except.error ("MissingField: " ++ n)
  | none => normalizeFields schema raw

/-- Modelled from the spec: `dispatch(request)` — validate the raw input, and only
on success invoke the executor on the normalized input and wrap its outcome.  The
Boolean component records whether the executor was invoked. -/
def dispatchTracked {α : Type} (schema : List SchemaField)
    (executor : List (String × JValue) → α) (raw : List (String × JValue)) :
    InvocationResult α × Bool :=
  match validateInput schema raw with
  | Except.error e => ({ succeeded := false, data := none, errorMessage := some e }, false)
  | Except.ok norm => (wrapOutcome (Except.ok (executor norm)), true)

/-! ## The `GMAIL_BATCH_DELETE_MESSAGES` tool (src/index.ts) -/

/-- The required `message_ids` field of the `GMAIL_BATCH_DELETE_MESSAGES` schema
(`z.array(z.string())`, required, no default). -/
def messageIdsField : SchemaField :=
  { name := "message_ids", ftype := FieldType.tstrList, required := true, default := none }

/-- The required `user_google_email` field of the `GMAIL_BATCH_DELETE_MESSAGES`
schema (`z.string()`, required, no default). -/
def userEmailField : SchemaField :=
  { name := "user_google_email", ftype := FieldType.tstr, required := true, default := none }

/-- Input schema of `GMAIL_BATCH_DELETE_MESSAGES`: both fields are required and
have no default. -/
def gmailBatchDeleteSchema : List SchemaField := [messageIdsField, userEmailField]

/-- Data record returned by the `GMAIL_BATCH_DELETE_MESSAGES` executor. -/
structure GmailBatchDeleteData where
  deleted_count : Nat
  message_ids : List JValue
  status : String

/-- Length of a list value, `0` for non-lists. -/
def jvalueListLength : JValue → Nat
  | JValue.vlist vs => vs.length
  | _ => 0

/-- Elements of a list value, `[]` for non-lists. -/
def jvalueListElems : JValue → List JValue
  | JValue.vlist vs => vs
  | _ => []

/-- The `GMAIL_BATCH_DELETE_MESSAGES` executor: echoes the ids, their count as
`deleted_count`, and `status: 'success'`. -/
def gmailBatchDeleteExecute (input : List (String × JValue)) : GmailBatchDeleteData :=
  let ids := lookupRaw input "message_ids"
  { deleted_count := (ids.map jvalueListLength).getD 0,
    message_ids := (ids.map jvalueListElems).getD [],
    status := "success" }

/-! ## Ordered collection of batch results (modelled from the spec)

`Promise.all` resolves with the results placed at the indices of their input
promises, whatever the order in which the individual promises settle.  Each task
is modelled as writing its result into the slot of its input index; the
`completionOrder` list is the order in which the tasks finish. -/

/-- Write the result of each finished task into the slot of its input index, in
completion order. -/
def fillSlots {α : Type} (f : Nat → α) : List Nat → List (Option α) → List (Option α)
  | [], slots => slots
  | i :: rest, slots => fillSlots f rest (slots.set i (some (f i)))

/-- Modelled from the spec: `dispatchAll` / `Promise.all` — `n` independent tasks
with results `f 0, …, f (n-1)` complete in the order given by `completionOrder`,
and each writes its result into the slot of its own input index. -/
def promiseAllOrdered {α : Type} (n : Nat) (f : Nat → α) (completionOrder : List Nat) :
    List (Option α) :=
  fillSlots f completionOrder (List.replicate n none)

/-! ## `GoogleWorkspaceAgent` connection-guarded convenience methods (part_001) -/

/-- Observable state of a `GoogleWorkspaceAgent`: its user id and the set of
connected services (a JS `Set<string>`, modelled as a list of its elements). -/
structure AgentState where
  userId : String
  connectedServices : List String
  deriving Repr, DecidableEq

/-- A call to `executeTool` as issued by a convenience method: the tool slug, the
user id and the argument record. -/
structure ToolInvocation (β : Type) where
  toolSlug : String
  userId : String
  arguments : β
  deriving Repr, DecidableEq

/-- Optional extras of `GoogleWorkspaceAgent.sendEmail`. -/
structure EmailOptions where
  cc : Option String
  bcc : Option String
  attachments : Option (List String)
  deriving Repr, DecidableEq

/-- The `emailData` record passed to `executeTool('GMAIL_SEND_EMAIL', …)`. -/
structure EmailData where
  «to» : String
  subject : String
  body : String
  cc : Option String
  bcc : Option String
  attachments : Option (List String)
  deriving Repr, DecidableEq

/-- `GoogleWorkspaceAgent.sendEmail`: throws `'Gmail not connected. Please
authenticate first.'` when `'gmail'` is not in `connectedServices`, and otherwise
issues `executeTool('GMAIL_SEND_EMAIL', userId, emailData)`. -/
def GoogleWorkspaceAgent.sendEmail (agent : AgentState) («to» subject body : String)
    (options : Option EmailOptions) : Except String (ToolInvocation EmailData) :=
  if agent.connectedServices.contains "gmail" = false then
    Except.error "Gmail not connected. Please authenticate first."
  else
    Except.ok
      { toolSlug := "GMAIL_SEND_EMAIL",
        userId := agent.userId,
        arguments :=
          { «to» := «to», subject := subject, body := body,
            cc := options.bind EmailOptions.cc,
            bcc := options.bind EmailOptions.bcc,
            attachments := options.bind EmailOptions.attachments } }

/-- Event argument of `GoogleWorkspaceAgent.createCalendarEvent`. -/
structure CalendarEventInput where
  title : String
  start : String
  stop : String
  description : Option String
  attendees : Option (List String)
  location : Option String
  deriving Repr, DecidableEq

/-- A `{ dateTime }` wrapper as sent to the calendar tool. -/
structure DateTimeObj where
  dateTime : String
  deriving Repr, DecidableEq

/-- An `{ email }` attendee wrapper as sent to the calendar tool. -/
structure AttendeeObj where
  email : String
  deriving Repr, DecidableEq

/-- The payload passed to `executeTool('GOOGLECALENDAR_CREATE_EVENT', …)`; the
source's `end` key is rendered `stop` here because `end` is reserved. -/
structure CalendarCreatePayload where
  summary : String
  start : DateTimeObj
  stop : DateTimeObj
  description : Option String
  attendees : Option (List AttendeeObj)
  location : Option String
  deriving Repr, DecidableEq

/-- `GoogleWorkspaceAgent.createCalendarEvent`: throws `'Google Calendar not
connected. Please authenticate first.'` when `'googlecalendar'` is not in
`connectedServices`, and otherwise issues
`executeTool('GOOGLECALENDAR_CREATE_EVENT', userId, …)` with the translated
payload. -/
def GoogleWorkspaceAgent.createCalendarEvent (agent : AgentState)
    (event : CalendarEventInput) : Except String (ToolInvocation CalendarCreatePayload) :=
  if agent.connectedServices.contains "googlecalendar" = false then
    Except.error "Google Calendar not connected. Please authenticate first."
  else
    Except.ok
      { toolSlug := "GOOGLECALENDAR_CREATE_EVENT",
        userId := agent.userId,
        arguments :=
          { summary := event.title,
            start := { dateTime := event.start },
            stop := { dateTime := event.stop },
            description := event.description,
            attendees := event.attendees.map (fun l => l.map (fun e => { email := e })),
            location := event.location } }

/-- The `uploadParams` record passed to `executeTool('GOOGLEDRIVE_UPLOAD_FILE', …)`. -/
structure DriveUploadParams where
  name : String
  content : String
  parents : Option (List String)
  deriving Repr, DecidableEq

/-- `GoogleWorkspaceAgent.uploadToDrive`: throws `'Google Drive not connected.
Please authenticate first.'` when `'googledrive'` is not in `connectedServices`,
and otherwise issues `executeTool('GOOGLEDRIVE_UPLOAD_FILE', userId, uploadParams)`
with `parents` set to `[parentFolderId]` when a parent folder is given. -/
def GoogleWorkspaceAgent.uploadToDrive (agent : AgentState)
    (filename content : String) (parentFolderId : Option String) :
    Except String (ToolInvocation DriveUploadParams) :=
  if agent.connectedServices.contains "googledrive" = false then
    Except.error "Google Drive not connected. Please authenticate first."
  else
    Except.ok
      { toolSlug := "GOOGLEDRIVE_UPLOAD_FILE",
        userId := agent.userId,
        arguments :=
          { name := filename,
            content := content,
            parents := parentFolderId.map (fun pid => [pid]) } }

/-! ## Theorems -/

/-- C2: every result produced by dispatching a capability has exactly one of `data`
and `errorMessage` populated.  The `EMAIL_ANALYTICS` executor always returns
`successful: true` with `data` populated and `error: null`; the
`GMAIL_GET_MESSAGES_CONTENT_BATCH` executor always returns a bare `data` record,
which the dispatcher wraps as a success; and any executor outcome — normal return
or thrown failure — wrapped at the dispatch boundary satisfies the invariant. -/
theorem c2_exactly_one_populated {α : Type} :
    (∀ (env : AnalyticsEnv) (input : EmailAnalyticsInput),
      ((emailAnalyticsExecute env input).toInvocationResult).wellFormed) ∧
    (∀ input : GmailMessagesContentBatchInput,
      (wrapOutcome (Except.ok (gmailGetMessagesContentBatchExecute input))).wellFormed) ∧
    (∀ outcome : Except String α, (wrapOutcome outcome).wellFormed) := by
  refine ⟨fun env input => ?_, fun input => ?_, fun outcome => ?_⟩
  · exact Or.inl ⟨rfl, rfl, rfl⟩
  · exact Or.inl ⟨rfl, rfl, rfl⟩
  · cases outcome with
    | ok v => exact Or.inl ⟨rfl, rfl, rfl⟩
    | error e => exact Or.inr ⟨rfl, rfl, rfl⟩

/-- C5: an invocation that omits an optional field with a declared default runs with
the default applied — the `GMAIL_SEARCH_MESSAGES_FILTERS` executor destructures
`max_results = 10`, and `searchGmailMessages` declares `maxResults: number = 10`,
so the omitted-argument call builds the same prompt as an explicit `10`. -/
theorem c5_defaults_applied (input : GmailSearchFiltersInput)
    (h : input.max_results = none) :
    (gmailSearchMessagesFiltersExecute input).max_results = 10 ∧
    ∀ q : String, searchGmailMessagesPrompt q = searchGmailMessagesPromptWith q 10 := by
  constructor
  · simp [gmailSearchMessagesFiltersExecute, h]
  · intro q
    rfl

/-- Witness for C5 at a concrete input omitting `max_results`. -/
theorem c5_witness :
    (gmailSearchMessagesFiltersExecute
      { query := "from:me", user_google_email := "user@example.com",
        max_results := none, label_ids := none, include_spam_trash := none,
        page_token := none }).max_results = 10 :=
  (c5_defaults_applied
    { query := "from:me", user_google_email := "user@example.com",
      max_results := none, label_ids := none, include_spam_trash := none,
      page_token := none } rfl).1

/-- C9: the `SHEETS_MODIFY_SHEET_VALUES` executor reports operation `'clear'` with
all counts `0` when `clear_values` is true, and otherwise operation `'update'`
with `updated_rows` the number of supplied rows (`0` when `values` is absent) and
`updated_columns` the length of the first row (`0` when absent). -/
theorem c9_modify_sheet_values (input : ModifySheetValuesInput) :
    (input.clear_values.getD false = true →
      modifySheetValuesExecute input =
        { updated_cells := 0, updated_rows := 0, updated_columns := 0,
          range := input.range_name, operation := "clear",
          spreadsheet_id := input.spreadsheet_id }) ∧
    (input.clear_values.getD false = false →
      (modifySheetValuesExecute input).operation = "update" ∧
      (modifySheetValuesExecute input).updated_rows = (input.values.getD []).length ∧
      (modifySheetValuesExecute input).updated_columns =
        ((input.values.getD []).headD []).length) := by
  constructor
  · intro h
    simp [modifySheetValuesExecute, h]
  · intro h
    refine ⟨by simp [modifySheetValuesExecute, h], ?_, ?_⟩
    · cases hv : input.values with
      | none => simp [modifySheetValuesExecute, h, hv]
      | some rows => simp [modifySheetValuesExecute, h, hv]
    · cases hv : input.values with
      | none => simp [modifySheetValuesExecute, h, hv]
      | some rows =>
        cases rows with
        | nil => simp [modifySheetValuesExecute, h, hv]
        | cons r rs => simp [modifySheetValuesExecute, h, hv]

/-- Witness for C9 at a concrete clearing input. -/
theorem c9_witness :
    modifySheetValuesExecute
      { user_google_email := "user@example.com", spreadsheet_id := "sheet1",
        range_name := "Sheet1!A1:B2", values := some [["a", "b"]],
        value_input_option := none, clear_values := some true } =
      { updated_cells := 0, updated_rows := 0, updated_columns := 0,
        range := "Sheet1!A1:B2", operation := "clear", spreadsheet_id := "sheet1" } :=
  (c9_modify_sheet_values
    { user_google_email := "user@example.com", spreadsheet_id := "sheet1",
      range_name := "Sheet1!A1:B2", values := some [["a", "b"]],
      value_input_option := none, clear_values := some true }).1 rfl

/-- C6 counterexample: a complete run of `initializeCustomTools` does not perform
84 registrations — the transcribed registration sequence has a different length. -/
theorem c6_counterexample : allCustomToolSlugs.length ≠ 84 := by decide

/-- C6 (amended): a complete run of `initializeCustomTools` performs exactly 86
custom-tool registrations (Gmail 14, Calendar 5, Drive 6, Docs 14, Sheets 6,
Slides 5, Forms 5, Chat 4, Search 3, Tasks 12, comments 12), which does not match
the hardcoded `tools_count` of 84 reported by the health endpoint. -/
theorem c6_amended :
    allCustomToolSlugs.length = 86 ∧
    gmailToolSlugs.length = 14 ∧ calendarToolSlugs.length = 5 ∧
    driveToolSlugs.length = 6 ∧ docsToolSlugs.length = 14 ∧
    sheetsToolSlugs.length = 6 ∧ slidesToolSlugs.length = 5 ∧
    formsToolSlugs.length = 5 ∧ chatToolSlugs.length = 4 ∧
    searchToolSlugs.length = 3 ∧ tasksToolSlugs.length = 12 ∧
    commentToolSlugs.length = 12 ∧
    ∀ (isReady : Bool) (userId : String),
      (healthResponse isReady userId).tools_count = 84 := by
  refine ⟨by decide, by decide, by decide, by decide, by decide, by decide, by decide,
    by decide, by decide, by decide, by decide, by decide, fun isReady userId => rfl⟩

/-- C8 counterexample: there are not 84 slug identifiers in the registration
sequence, so the claim as stated (84 pairwise-distinct slugs) fails on its count. -/
theorem c8_counterexample :
    ¬ (allCustomToolSlugs.length = 84 ∧ allCustomToolSlugs.Nodup) := by
  intro h
  exact absurd h.1 (by decide)

/-- C8 (amended): the 86 slug identifiers passed to the `createCustomTool`
registrations made by `initializeCustomTools` are pairwise distinct, so the
registry's identifier-uniqueness invariant holds for the full startup
registration sequence. -/
theorem c8_amended : allCustomToolSlugs.length = 86 ∧ allCustomToolSlugs.Nodup := by
  constructor
  · decide
  · decide

/-- C1 counterexample: a capability whose execution reports `successful: false` is
not converted to an in-band result by the repository's dispatch wrapper —
`executeTool` throws the failure message, and one failing `sendEmail` in the
`scheduleMeetingWithInvites` batch rejects the whole `Promise.all`, aborting the
sibling requests. -/
theorem c1_counterexample :
    executeTool
      (fun _ _ _ => Except.ok
        { successful := false, data := (0 : Nat), error := "Request failed" })
      "GMAIL_SEND_EMAIL" "default" () = Except.error "Request failed" ∧
    (¬ ∃ v : Nat, executeTool
      (fun _ _ _ => Except.ok
        { successful := false, data := (0 : Nat), error := "Request failed" })
      "GMAIL_SEND_EMAIL" "default" () = Except.ok v) ∧
    scheduleMeetingInvites
      (fun a => if a = "bob@example.com" then Except.error "Request failed"
                else Except.ok "sent")
      ["alice@example.com", "bob@example.com", "carol@example.com"] =
      Except.error "Request failed" := by
  refine ⟨rfl, ?_, by simp [scheduleMeetingInvites, promiseAllExcept]⟩
  rintro ⟨v, hv⟩
  simp [executeTool] at hv

/-- Helper: a batch containing a rejected outcome makes the whole `Promise.all`
reject. -/
theorem promiseAllExcept_error_of_mem {α : Type} (l : List (Except String α))
    (e : String) (h : Except.error e ∈ l) :
    ∃ msg : String, promiseAllExcept l = Except.error msg := by
  induction l with
  | nil => cases h
  | cons t ts ih =>
    cases h with
    | head => exact ⟨e, rfl⟩
    | tail _ hmem =>
      cases t with
      | error e2 => exact ⟨e2, rfl⟩
      | ok v =>
        obtain ⟨msg, hmsg⟩ := ih hmem
        refine ⟨msg, ?_⟩
        simp [promiseAllExcept, hmsg]

/-- C1 (amended): the repository's dispatch wrapper `executeTool` propagates
failures instead of returning them in-band — an execution result with
`successful: false` makes `executeTool` throw the result's error message, and in
`scheduleMeetingWithInvites` one failing `sendEmail` rejects the whole
`Promise.all` batch, discarding the sibling results. -/
theorem c1_executeTool_propagates {α β γ : Type} (result : ComposioToolResult α)
    (hfail : result.successful = false) (slug userId : String) (args : β)
    (sendEmailFn : String → Except String γ) (attendees : List String)
    (a : String) (ha : a ∈ attendees) (e : String)
    (he : sendEmailFn a = Except.error e) :
    executeTool (fun _ _ _ => Except.ok result) slug userId args =
      Except.error result.error ∧
    ∃ msg : String, scheduleMeetingInvites sendEmailFn attendees =
      Except.error msg := by
  constructor
  · simp [executeTool, hfail]
  · exact promiseAllExcept_error_of_mem _ e
      (he ▸ List.mem_map_of_mem sendEmailFn ha)

/-- Witness for C1 (amended) at concrete failing inputs. -/
theorem c1_witness :
    executeTool
      (fun _ _ _ => Except.ok { successful := false, data := (0 : Nat), error := "boom" })
      "GMAIL_SEND_EMAIL" "default" () = Except.error "boom" ∧
    ∃ msg : String, scheduleMeetingInvites
      (fun _ => (Except.error "boom" : Except String Nat)) ["bob@example.com"] =
      Except.error msg :=
  c1_executeTool_propagates { successful := false, data := 0, error := "boom" } rfl
    "GMAIL_SEND_EMAIL" "default" () (fun _ => Except.error "boom")
    ["bob@example.com"] "bob@example.com" (by simp) "boom" rfl

/-- C10: each connection-guarded convenience method of `GoogleWorkspaceAgent`
throws its `'not connected'` error before any tool execution when the required
service is not in `connectedServices`, and issues its `executeTool` call (with the
matching slug and the agent's user id) exactly when the service is connected. -/
theorem c10_connection_guards (agent : AgentState) :
    (agent.connectedServices.contains "gmail" = false →
      ∀ («to» subject body : String) (options : Option EmailOptions),
        GoogleWorkspaceAgent.sendEmail agent «to» subject body options =
          Except.error "Gmail not connected. Please authenticate first.") ∧
    (agent.connectedServices.contains "gmail" = true →
      ∀ («to» subject body : String) (options : Option EmailOptions),
        ∃ inv : ToolInvocation EmailData,
          GoogleWorkspaceAgent.sendEmail agent «to» subject body options =
            Except.ok inv ∧
          inv.toolSlug = "GMAIL_SEND_EMAIL" ∧ inv.userId = agent.userId) ∧
    (agent.connectedServices.contains "googlecalendar" = false →
      ∀ event : CalendarEventInput,
        GoogleWorkspaceAgent.createCalendarEvent agent event =
          Except.error "Google Calendar not connected. Please authenticate first.") ∧
    (agent.connectedServices.contains "googlecalendar" = true →
      ∀ event : CalendarEventInput,
        ∃ inv : ToolInvocation CalendarCreatePayload,
          GoogleWorkspaceAgent.createCalendarEvent agent event = Except.ok inv ∧
          inv.toolSlug = "GOOGLECALENDAR_CREATE_EVENT" ∧ inv.userId = agent.userId) ∧
    (agent.connectedServices.contains "googledrive" = false →
      ∀ (filename content : String) (parentFolderId : Option String),
        GoogleWorkspaceAgent.uploadToDrive agent filename content parentFolderId =
          Except.error "Google Drive not connected. Please authenticate first.") ∧
    (agent.connectedServices.contains "googledrive" = true →
      ∀ (filename content : String) (parentFolderId : Option String),
        ∃ inv : ToolInvocation DriveUploadParams,
          GoogleWorkspaceAgent.uploadToDrive agent filename content parentFolderId =
            Except.ok inv ∧
          inv.toolSlug = "GOOGLEDRIVE_UPLOAD_FILE" ∧ inv.userId = agent.userId) := by
  refine ⟨?_, ?_, ?_, ?_, ?_, ?_⟩
  · intro h «to» subject body options
    unfold GoogleWorkspaceAgent.sendEmail
    rw [h]
    rfl
  · intro h «to» subject body options
    unfold GoogleWorkspaceAgent.sendEmail
    rw [h]
    exact ⟨_, rfl, rfl, rfl⟩
  · intro h event
    unfold GoogleWorkspaceAgent.createCalendarEvent
    rw [h]
    rfl
  · intro h event
    unfold GoogleWorkspaceAgent.createCalendarEvent
    rw [h]
    exact ⟨_, rfl, rfl, rfl⟩
  · intro h filename content parentFolderId
    unfold GoogleWorkspaceAgent.uploadToDrive
    rw [h]
    rfl
  · intro h filename content parentFolderId
    unfold GoogleWorkspaceAgent.uploadToDrive
    rw [h]
    exact ⟨_, rfl, rfl, rfl⟩

/-- Witness for C10 at concrete agents without and with connections. -/
theorem c10_witness :
    GoogleWorkspaceAgent.sendEmail
      { userId := "default", connectedServices := [] } "a@x.com" "Hi" "Body" none =
      Except.error "Gmail not connected. Please authenticate first." ∧
    (∃ inv : ToolInvocation EmailData,
      GoogleWorkspaceAgent.sendEmail
        { userId := "default", connectedServices := ["gmail"] } "a@x.com" "Hi" "Body" none =
        Except.ok inv ∧
      inv.toolSlug = "GMAIL_SEND_EMAIL" ∧ inv.userId = "default") ∧
    GoogleWorkspaceAgent.createCalendarEvent
      { userId := "default", connectedServices := [] }
      { title := "Sync", start := "2024-01-15T14:00:00Z", stop := "2024-01-15T15:00:00Z",
        description := none, attendees := none, location := none } =
      Except.error "Google Calendar not connected. Please authenticate first." ∧
    GoogleWorkspaceAgent.uploadToDrive
      { userId := "default", connectedServices := [] } "f.txt" "hello" none =
      Except.error "Google Drive not connected. Please authenticate first." :=
  ⟨(c10_connection_guards { userId := "default", connectedServices := [] }).1
      rfl "a@x.com" "Hi" "Body" none,
   (c10_connection_guards { userId := "default", connectedServices := ["gmail"] }).2.1
      (by decide) "a@x.com" "Hi" "Body" none,
   (c10_connection_guards { userId := "default", connectedServices := [] }).2.2.1
      rfl
      { title := "Sync", start := "2024-01-15T14:00:00Z", stop := "2024-01-15T15:00:00Z",
        description := none, attendees := none, location := none },
   (c10_connection_guards { userId := "default", connectedServices := [] }).2.2.2.2.1
      rfl "f.txt" "hello" none⟩

/-- Helper: `serviceStep` preserves the agreement of `isReady` with the ghost
`initCompleted` flag along any event sequence. -/
theorem foldl_serviceStep_invariant (events : List ServiceEvent) (s : ServiceState)
    (h : s.isReady = s.initCompleted) :
    (events.foldl serviceStep s).isReady = (events.foldl serviceStep s).initCompleted := by
  induction events generalizing s with
  | nil => exact h
  | cons ev rest ih =>
    cases ev with
    | initSuccess => exact ih _ rfl
    | initFailure => exact ih _ h

/-- Helper: once `isReady` is set it stays set under every further event. -/
theorem foldl_serviceStep_mono (events : List ServiceEvent) (s : ServiceState)
    (h : s.isReady = true) : (events.foldl serviceStep s).isReady = true := by
  induction events generalizing s with
  | nil => exact h
  | cons ev rest ih =>
    cases ev with
    | initSuccess => exact ih _ rfl
    | initFailure => exact ih _ h

/-- C7: the service starts not-ready (the health probe says `"initializing"`),
the probe reports `"ready"` for a reachable state exactly when
`initializeCustomTools` has completed successfully, and readiness never reverts
under further events. -/
theorem c7_readiness (userId : String) :
    (healthResponse (runService []).isReady userId).status = "initializing" ∧
    (∀ events : List ServiceEvent,
      ((healthResponse (runService events).isReady userId).status = "ready" ↔
        (runService events).initCompleted = true)) ∧
    (∀ events more : List ServiceEvent, (runService events).isReady = true →
      (runService (events ++ more)).isReady = true) := by
  refine ⟨rfl, fun events => ?_, fun events more h => ?_⟩
  · have hinv := foldl_serviceStep_invariant events ServiceState.start rfl
    cases hr : (runService events).isReady with
    | false =>
      have hc : (runService events).initCompleted = false := hinv.symm.trans hr
      simp only [healthResponse, hr, hc]
      decide
    | true =>
      have hc : (runService events).initCompleted = true := hinv.symm.trans hr
      simp only [healthResponse, hr, hc]
      decide
  · rw [runService, List.foldl_append]
    exact foldl_serviceStep_mono more _ h

/-- Witness for C7: a successful initialization makes the service ready and a
later failing re-initialization does not revert it. -/
theorem c7_witness :
    (runService ([ServiceEvent.initSuccess] ++ [ServiceEvent.initFailure])).isReady = true :=
  (c7_readiness "default").2.2 [ServiceEvent.initSuccess] [ServiceEvent.initFailure]
    (by decide)

/-- Helper: filling slots never changes the number of slots. -/
theorem fillSlots_length {α : Type} (f : Nat → α) (order : List Nat)
    (slots : List (Option α)) : (fillSlots f order slots).length = slots.length := by
  induction order generalizing slots with
  | nil => rfl
  | cons j rest ih => rw [fillSlots, ih, List.length_set]

/-- Helper: after the tasks listed in `order` have finished, slot `i` holds
`f i` when task `i` is among them, and is untouched otherwise. -/
theorem fillSlots_get? {α : Type} (f : Nat → α) (order : List Nat)
    (slots : List (Option α)) (i : Nat) (hi : i < slots.length) :
    (fillSlots f order slots).get? i =
      if i ∈ order then some (some (f i)) else slots.get? i := by
  induction order generalizing slots with
  | nil => simp [fillSlots]
  | cons j rest ih =>
    rw [fillSlots, ih _ (by rw [List.length_set]; exact hi)]
    by_cases hij : i = j
    · subst hij
      by_cases hmem : i ∈ rest
      · simp [hmem]
      · simp [hmem, List.getElem?_set_eq_of_lt _ hi]
    · by_cases hmem : i ∈ rest
      · simp [hmem, hij]
      · have hset : (slots.set j (some (f j)))[i]? = slots[i]? :=
          List.getElem?_set_ne (fun hji => hij hji.symm)
        simp [hmem, hij, hset]

/-- C3: a batch of per-attendee `sendEmail` invocations combined through the
ordered-collection semantics of `Promise.all` yields its results in attendee
(input) order for every completion order of the individual executions. -/
theorem c3_results_in_input_order {α : Type} (attendees : List String)
    (sendEmailRes : String → α) (completionOrder : List Nat)
    (hperm : completionOrder.Perm (List.range attendees.length)) :
    promiseAllOrdered attendees.length (fun i => sendEmailRes (attendees.getD i ""))
      completionOrder = attendees.map (fun a => some (sendEmailRes a)) := by
  apply List.ext
  intro i
  by_cases hi : i < attendees.length
  · rw [promiseAllOrdered, fillSlots_get? _ _ _ i (by simpa using hi)]
    have hmem : i ∈ completionOrder :=
      hperm.mem_iff.mpr (List.mem_range.mpr hi)
    rw [if_pos hmem, List.get?_map, List.get?_eq_get hi]
    have hgetd : attendees.getD i "" = attendees.get ⟨i, hi⟩ := by
      rw [List.getD_eq_get?, List.get?_eq_get hi]
      rfl
    rw [hgetd]
    rfl
  · have hlen : (promiseAllOrdered attendees.length
        (fun j => sendEmailRes (attendees.getD j "")) completionOrder).length =
        attendees.length := by
      rw [promiseAllOrdered, fillSlots_length, List.length_replicate]
    rw [List.get?_eq_none.mpr (by rw [hlen]; omega),
      List.get?_eq_none.mpr (by rw [List.length_map]; omega)]

/-- Witness for C3: three attendees whose executions complete in the order
third, first, second still produce results in input order. -/
theorem c3_witness :
    promiseAllOrdered 3
      (fun i => "sent:" ++
        (["alice@example.com", "bob@example.com", "carol@example.com"].getD i ""))
      [2, 0, 1] =
      ["alice@example.com", "bob@example.com", "carol@example.com"].map
        (fun a => some ("sent:" ++ a)) :=
  c3_results_in_input_order
    ["alice@example.com", "bob@example.com", "carol@example.com"]
    (fun a => "sent:" ++ a) [2, 0, 1] (by decide)

/-- C4: for any raw input to `GMAIL_BATCH_DELETE_MESSAGES` that omits a field the
schema declares required, dispatch returns `succeeded: false` with a
`MissingField` error naming a required field that is indeed missing from the
input, and the executor is never invoked: the invocation flag is `false` and the
result is the same for every executor. -/
theorem c4_missing_required (raw : List (String × JValue)) (f : SchemaField)
    (hf : f ∈ gmailBatchDeleteSchema) (hreq : f.required = true)
    (hmiss : lookupRaw raw f.name = none) :
    ∃ g : SchemaField, g ∈ gmailBatchDeleteSchema ∧ g.required = true ∧
      lookupRaw raw g.name = none ∧
      ∀ {α : Type} (executor : List (String × JValue) → α),
        dispatchTracked gmailBatchDeleteSchema executor raw =
          ({ succeeded := false, data := none,
             errorMessage := some ("MissingField: " ++ g.name) }, false) := by
  cases hm : lookupRaw raw "message_ids" with
  | none =>
    refine ⟨messageIdsField, by simp [gmailBatchDeleteSchema], rfl, hm,
      fun {α} executor => ?_⟩
    have h1 : firstMissingRequired gmailBatchDeleteSchema raw = some "message_ids" := by
      unfold firstMissingRequired gmailBatchDeleteSchema
      rw [List.find?_cons_of_pos _ (by simp [messageIdsField, hm])]
      rfl
    have h2 : validateInput gmailBatchDeleteSchema raw =
        Except.error ("MissingField: " ++ "message_ids") := by
      unfold validateInput
      rw [h1]
    unfold dispatchTracked
    rw [h2]
    rfl
  | some v =>
    have hcases : f = messageIdsField ∨ f = userEmailField := by
      simpa [gmailBatchDeleteSchema] using hf
    have hfu : f.name = "user_google_email" := by
      cases hcases with
      | inl hcase =>
        rw [hcase] at hmiss
        simp only [messageIdsField] at hmiss
        simp [hmiss] at hm
      | inr hcase =>
        rw [hcase]
        rfl
    rw [hfu] at hmiss
    refine ⟨userEmailField, by simp [gmailBatchDeleteSchema], rfl, hmiss,
      fun {α} executor => ?_⟩
    have h1 : firstMissingRequired gmailBatchDeleteSchema raw =
        some "user_google_email" := by
      unfold firstMissingRequired gmailBatchDeleteSchema
      rw [List.find?_cons_of_neg _ (by simp [messageIdsField, hm]),
        List.find?_cons_of_pos _ (by simp [userEmailField, hmiss])]
      rfl
    have h2 : validateInput gmailBatchDeleteSchema raw =
        Except.error ("MissingField: " ++ "user_google_email") := by
      unfold validateInput
      rw [h1]
    unfold dispatchTracked
    rw [h2]
    rfl

/-- Witness for C4 at a concrete raw input that omits `user_google_email`: the
`GMAIL_BATCH_DELETE_MESSAGES` executor is never run and the result is a failed
`InvocationResult` naming the missing field. -/
theorem c4_witness :
    ∃ g : SchemaField, g ∈ gmailBatchDeleteSchema ∧ g.required = true ∧
      lookupRaw [("message_ids", JValue.vlist [JValue.vstr "id1"])] g.name = none ∧
      ∀ {α : Type} (executor : List (String × JValue) → α),
        dispatchTracked gmailBatchDeleteSchema executor
          [("message_ids", JValue.vlist [JValue.vstr "id1"])] =
          ({ succeeded := false, data := none,
             errorMessage := some ("MissingField: " ++ g.name) }, false) :=
  c4_missing_required [("message_ids", JValue.vlist [JValue.vstr "id1"])]
    userEmailField (by simp [gmailBatchDeleteSchema]) rfl rfl
